import Mathlib

/-!
Verification of the permission-gated SQL execution core of the
snowflake-mcp server, shallowly embedded from
`src/snowflake_mcp/tools/sql.py`, `src/snowflake_mcp/utils/validators.py`,
`src/snowflake_mcp/core/connection.py` and `src/snowflake_mcp/server.py`.

The external SQL parser (the `sqlglot` library) is not part of the
repository; it is abstracted as an oracle `parse : String → Option String`
returning the name of the root AST node class, with `none` standing for the
`sqlglot.errors.ParseError` that `get_statement_type` catches.  The network
layer (the `snowflake.connector` driver) is likewise abstracted: query
execution is an oracle, and the connection/cursor lifecycle is modelled by
explicit state passing plus an event trace.
-/

/-- Python `str.lower()` restricted to the ASCII range used by the code:
per-character lower-casing. -/
def pyLower (s : String) : String := String.mk (s.data.map Char.toLower)

/-- Python `str.upper()` restricted to the ASCII range used by the code:
per-character upper-casing. -/
def pyUpper (s : String) : String := String.mk (s.data.map Char.toUpper)

/-- The ASCII whitespace characters stripped by Python `str.strip()`. -/
def pyWhitespace (c : Char) : Bool :=
  c == ' ' || c == '\t' || c == '\n' || c == '\r' || c == '\x0b' || c == '\x0c'

/-- Python `str.strip()`: drop leading and trailing whitespace. -/
def pyStrip (s : String) : String :=
  String.mk (((s.data.dropWhile pyWhitespace).reverse.dropWhile pyWhitespace).reverse)

/-- Python `str.startswith(p)`. -/
def pyStarts (s p : String) : Bool := p.data.isPrefixOf s.data

/-- Embeds `get_statement_type` (`tools/sql.py` lines 85-97): call the
parser; on success return the class name of the root node, on a parse
error return the string "Unknown". -/
def get_statement_type (parse : String → Option String) (sql_string : String) : String :=
  match parse sql_string with
  | some statement_type => statement_type
  | none => "Unknown"

/-- Embeds `map_statement_type_to_config` (`tools/sql.py` lines 100-133):
lower-case the raw type name; when it is "command" or "unknown", scan the
trimmed upper-cased SQL text through the fixed chain of prefix keywords;
otherwise return the lower-cased raw name unchanged. -/
def map_statement_type_to_config (sql_string : String) (statement_type : String) : String :=
  let statement_lower := pyLower statement_type
  let sql_upper := pyUpper (pyStrip sql_string)
  if statement_lower == "command" || statement_lower == "unknown" then
    if pyStarts sql_upper "SHOW" then "show"
    else if pyStarts sql_upper "DESCRIBE" || pyStarts sql_upper "DESC" then "describe"
    else if pyStarts sql_upper "USE" then "use"
    else if pyStarts sql_upper "EXPLAIN" then "explain"
    else if pyStarts sql_upper "GRANT" then "grant"
    else if pyStarts sql_upper "REVOKE" then "revoke"
    else if pyStarts sql_upper "SET" then "set"
    else if pyStarts sql_upper "CALL" then "call"
    else "unknown"
  else statement_lower

/-- The classifier pipeline as used by `validate_sql_type`
(`tools/sql.py` lines 142-143): raw AST type, then mapping to the
configuration vocabulary.  This is the `classify` contract of the spec. -/
def classify (parse : String → Option String) (sql_string : String) : String :=
  map_statement_type_to_config sql_string (get_statement_type parse sql_string)

/-- The ordered keyword table of the spec (section 4.1): each entry is a
set of alternative prefixes together with the tag it yields. -/
def commandKeywordTags : List (List String × String) :=
  [(["SHOW"], "show"),
   (["DESCRIBE", "DESC"], "describe"),
   (["USE"], "use"),
   (["EXPLAIN"], "explain"),
   (["GRANT"], "grant"),
   (["REVOKE"], "revoke"),
   (["SET"], "set"),
   (["CALL"], "call")]

/-- Modelled from the spec: first-match-wins scan of an ordered keyword
table; no match yields "unknown". -/
def firstMatchingTag (s : String) : List (List String × String) → String
  | [] => "unknown"
  | (kws, tag) :: rest =>
      if kws.any (fun k => pyStarts s k) then tag else firstMatchingTag s rest

/-- Modelled from the spec (section 4.1): the classifier as the spec words
it, using the ordered scan `firstMatchingTag`; compared against the code
embedding `map_statement_type_to_config` below. -/
def mapStatementTypeSpec (sql_string : String) (statement_type : String) : String :=
  let statement_lower := pyLower statement_type
  if statement_lower == "command" || statement_lower == "unknown" then
    firstMatchingTag (pyUpper (pyStrip sql_string)) commandKeywordTags
  else statement_lower

/-- Embeds the permission evaluation of `validate_sql_type`
(`tools/sql.py` lines 145-164), with the classified statement type already
computed: the chain of membership tests over the allow and disallow
lists. -/
def validate_sql_type_verdict (statement_type : String)
    (sql_allow_list sql_disallow_list : List String) : Bool :=
  if sql_allow_list.contains "all" then true
  else if sql_disallow_list.contains statement_type then false
  else if sql_allow_list.contains statement_type then true
  else if statement_type == "unknown" && sql_allow_list.contains "unknown" then true
  else if sql_allow_list.length == 0 && sql_disallow_list.length == 0 then false
  else false

/-- Embeds `validate_sql_type` (`tools/sql.py` lines 136-165): classify the
SQL text, then evaluate the policy; returns the classified type together
with the verdict. -/
def validate_sql_type (parse : String → Option String) (sql_string : String)
    (sql_allow_list sql_disallow_list : List String) : String × Bool :=
  let raw_statement_type := get_statement_type parse sql_string
  let statement_type := map_statement_type_to_config sql_string raw_statement_type
  (statement_type, validate_sql_type_verdict statement_type sql_allow_list sql_disallow_list)

/-- Embeds `validate_sql_permissions` (`utils/validators.py` lines 65-123):
derive a statement type from the function name by prefix, then evaluate
the allow and disallow lists (empty-lists check first in this variant). -/
def validate_sql_permissions (function_name : String)
    (sql_allow_list sql_disallow_list : List String) : String × Bool :=
  let func_lower := pyLower function_name
  let stmt_type :=
    if pyStarts func_lower "create" then "create"
    else if pyStarts func_lower "drop" then "drop"
    else if pyStarts func_lower "alter" then "alter"
    else if pyStarts func_lower "list" || pyStarts func_lower "show" then "select"
    else if pyStarts func_lower "describe" then "select"
    else if pyStarts func_lower "query" || pyStarts func_lower "run" then "select"
    else "unknown"
  if sql_allow_list.isEmpty && sql_disallow_list.isEmpty then (stmt_type, false)
  else if sql_allow_list.contains "all" then (stmt_type, true)
  else if sql_disallow_list.contains stmt_type then (stmt_type, false)
  else if sql_allow_list.contains stmt_type then (stmt_type, true)
  else if stmt_type == "unknown" && sql_allow_list.contains "unknown" then (stmt_type, true)
  else (stmt_type, false)

/-- C2: if the allowed list contains "all", the verdict is allow for every
statement type, regardless of the disallowed list; the same escape hatch
holds in `validate_sql_permissions`. -/
theorem verdict_allow_all_escape_hatch :
    (∀ (t : String) (allow disallow : List String),
       allow.contains "all" = true →
       validate_sql_type_verdict t allow disallow = true)
  ∧ (∀ (fname : String) (allow disallow : List String),
       allow.contains "all" = true →
       (validate_sql_permissions fname allow disallow).2 = true) := by
  constructor
  · intro t allow disallow h
    have hm : "all" ∈ allow := by simpa using h
    simp [validate_sql_type_verdict, hm]
  · intro fname allow disallow h
    have hm : "all" ∈ allow := by simpa using h
    have hne : allow.isEmpty = false := by
      cases allow with
      | nil => simp at hm
      | cons a as => rfl
    simp [validate_sql_permissions, hm, hne]

/-- Witness for C2 at a concrete policy. -/
theorem verdict_allow_all_escape_hatch_witness :
    validate_sql_type_verdict "drop" ["all"] ["drop"] = true
  ∧ (validate_sql_permissions "drop_table" ["all"] ["drop"]).2 = true :=
  ⟨verdict_allow_all_escape_hatch.1 "drop" ["all"] ["drop"] rfl,
   verdict_allow_all_escape_hatch.2 "drop_table" ["all"] ["drop"] rfl⟩

/-- C3: if the statement type is in the disallowed list and "all" is not in
the allowed list, the verdict is deny, even when the type is also in the
allowed list. -/
theorem verdict_disallow_precedence (t : String) (allow disallow : List String)
    (hd : disallow.contains t = true) (ha : allow.contains "all" = false) :
    validate_sql_type_verdict t allow disallow = false := by
  have hdm : t ∈ disallow := by simpa using hd
  have ham : "all" ∉ allow := by simpa using ha
  simp [validate_sql_type_verdict, hdm, ham]

/-- Witness for C3: "select" disallowed while also in the allowed list. -/
theorem verdict_disallow_precedence_witness :
    validate_sql_type_verdict "select" ["select", "show"] ["select"] = false :=
  verdict_disallow_precedence "select" ["select", "show"] ["select"] rfl rfl

/-- C4: with both lists empty, every verdict is deny (fail-closed default),
in both permission evaluators. -/
theorem verdict_empty_policy_denies :
    (∀ t : String, validate_sql_type_verdict t [] [] = false)
  ∧ (∀ fname : String, (validate_sql_permissions fname [] []).2 = false) := by
  constructor
  · intro t
    simp [validate_sql_type_verdict]
  · intro fname
    rfl

/-- C6: classification is total and never raises: a parse failure is mapped
to the raw type "Unknown", and a successful parse returns the raw type,
for every parser oracle and every input string. -/
theorem get_statement_type_never_fails (parse : String → Option String) (s : String) :
    (parse s = none → get_statement_type parse s = "Unknown")
  ∧ (∀ raw, parse s = some raw → get_statement_type parse s = raw) := by
  constructor
  · intro h
    simp [get_statement_type, h]
  · intro raw h
    simp [get_statement_type, h]

/-- Witness for C6 at a failing oracle and at a succeeding oracle. -/
theorem get_statement_type_never_fails_witness :
    get_statement_type (fun _ => none) "x" = "Unknown"
  ∧ get_statement_type (fun _ => some "Select") "x" = "Select" :=
  ⟨(get_statement_type_never_fails (fun _ => none) "x").1 rfl,
   (get_statement_type_never_fails (fun _ => some "Select") "x").2 "Select" rfl⟩

/-- C7: the code's prefix-keyword fallback is exactly the spec's ordered
first-match-wins scan over SHOW, DESCRIBE/DESC, USE, EXPLAIN, GRANT,
REVOKE, SET, CALL, with "unknown" when no prefix matches, and the
lower-cased raw name for every raw type other than Command/Unknown. -/
theorem map_statement_type_matches_ordered_scan (sql_string statement_type : String) :
    map_statement_type_to_config sql_string statement_type =
      mapStatementTypeSpec sql_string statement_type := by
  simp only [map_statement_type_to_config, mapStatementTypeSpec, commandKeywordTags,
    firstMatchingTag, List.any_cons, List.any_nil, Bool.or_false]

/-- Embeds `SQLStatementPermissions` (`config/settings.py` lines 18-21). -/
structure SQLStatementPermissions where
  allowed : List String
  disallowed : List String
deriving DecidableEq

/-- Embeds `ServerConfig` (`config/settings.py` lines 24-28).  A pydantic
model instance is always truthy, so the guard
`if config and config.sql_statement_permissions` in `run_query_tool`
reduces to `config is not None`; the permissions field itself is total. -/
structure ServerConfig where
  sql_statement_permissions : SQLStatementPermissions
deriving DecidableEq

/-- Embeds `SnowflakeException` (`core/exceptions.py` lines 10-39): the
tool name, the message, and an optional HTTP status code. -/
structure SnowflakeException where
  tool : String
  message : String
  status_code : Option Nat
deriving DecidableEq

/-- The message raised by `run_query_tool` on a denied statement
(`tools/sql.py` line 78), with the classified type interpolated. -/
def permission_denied_message (statement_type : String) : String :=
  "SQL statement type \x27" ++ statement_type ++ "\x27 is not permitted by configuration"

/-- Embeds the closure `run_query_tool` registered by
`initialize_query_manager_tool` (`tools/sql.py` lines 54-82).  The
executor `run_query` (lines 18-51) performs network I/O against the
cached connection, so it is abstracted as an oracle returning either rows
or a wrapped execution error; the tool consults it only after the policy
gate passes, or immediately when no config was supplied at registration. -/
def run_query_tool (α : Type) (config : Option ServerConfig)
    (parse : String → Option String)
    (run_query : String → Except SnowflakeException α)
    (statement : String) : Except SnowflakeException α :=
  match config with
  | some cfg =>
      let r := validate_sql_type parse statement
        cfg.sql_statement_permissions.allowed
        cfg.sql_statement_permissions.disallowed
      if !r.2 then
        .error { tool := "run_snowflake_query",
                 message := permission_denied_message r.1,
                 status_code := some 403 }
      else run_query statement
  | none => run_query statement

/-- The config value with which `initialize_tools` (`server.py` lines
165-176) registers the query tool: `initialize_query_manager_tool` is
called without a config argument, so the closure captures `None`. -/
def initialize_tools_query_config : Option ServerConfig := none

/-- The scenario policy of the spec:
allowed = [select, show], disallowed = [drop]. -/
def scenarioConfig : ServerConfig :=
  { sql_statement_permissions := { allowed := ["select", "show"], disallowed := ["drop"] } }

/-- A parser oracle matching what sqlglot returns on the scenario inputs. -/
def parseStub : String → Option String := fun s =>
  if s == "DROP TABLE t" then some "Drop"
  else if s == "SELECT 1" then some "Select"
  else none

/-- A query executor oracle that always succeeds with one row. -/
def rqStub : String → Except SnowflakeException (List (String × String)) :=
  fun _ => .ok [("1", "1")]

/-- C1: whenever the classified type of a statement is denied by the
configured policy, `run_query_tool` returns the 403 permission error
carrying the classified type in its message, independently of the
executor (so the SQL is never executed); under the scenario policy
(allowed = [select, show], disallowed = [drop]), "DROP TABLE t" yields the
error naming type drop while "SELECT 1" is handed to the executor; and
the denial message does contain the rejected type. -/
theorem run_query_tool_denies_blocked_statements :
    (∀ (α : Type) (perms : SQLStatementPermissions) (parse : String → Option String)
       (rq : String → Except SnowflakeException α) (stmt : String),
       (validate_sql_type parse stmt perms.allowed perms.disallowed).2 = false →
       run_query_tool α (some { sql_statement_permissions := perms }) parse rq stmt =
         .error { tool := "run_snowflake_query",
                  message := permission_denied_message
                    (validate_sql_type parse stmt perms.allowed perms.disallowed).1,
                  status_code := some 403 })
  ∧ (∀ (α : Type) (parse : String → Option String)
       (rq : String → Except SnowflakeException α),
       parse "DROP TABLE t" = some "Drop" →
       run_query_tool α (some scenarioConfig) parse rq "DROP TABLE t" =
         .error { tool := "run_snowflake_query",
                  message := permission_denied_message "drop",
                  status_code := some 403 })
  ∧ (∀ (α : Type) (parse : String → Option String)
       (rq : String → Except SnowflakeException α),
       parse "SELECT 1" = some "Select" →
       run_query_tool α (some scenarioConfig) parse rq "SELECT 1" = rq "SELECT 1")
  ∧ (∀ t : String, ∃ pre post : String,
       permission_denied_message t = pre ++ t ++ post) := by
  refine ⟨?_, ?_, ?_, ?_⟩
  · intro α perms parse rq stmt h
    simp [run_query_tool, h]
  · intro α parse rq h
    have hmap : map_statement_type_to_config "DROP TABLE t" "Drop" = "drop" := by decide
    have hver : validate_sql_type_verdict "drop" ["select", "show"] ["drop"] = false := by
      decide
    simp [run_query_tool, validate_sql_type, get_statement_type, h, scenarioConfig,
      hmap, hver]
  · intro α parse rq h
    have hmap : map_statement_type_to_config "SELECT 1" "Select" = "select" := by decide
    have hver : validate_sql_type_verdict "select" ["select", "show"] ["drop"] = true := by
      decide
    simp [run_query_tool, validate_sql_type, get_statement_type, h, scenarioConfig,
      hmap, hver]
  · intro t
    exact ⟨"SQL statement type \x27", "\x27 is not permitted by configuration", rfl⟩

/-- Witness for C1 at the concrete scenario oracles. -/
theorem run_query_tool_denies_blocked_statements_witness :
    run_query_tool (List (String × String)) (some scenarioConfig) parseStub rqStub
        "DROP TABLE t" =
      .error { tool := "run_snowflake_query",
               message := permission_denied_message "drop",
               status_code := some 403 }
  ∧ run_query_tool (List (String × String)) (some scenarioConfig) parseStub rqStub
        "SELECT 1" = rqStub "SELECT 1" :=
  ⟨run_query_tool_denies_blocked_statements.2.1 (List (String × String)) parseStub rqStub rfl,
   run_query_tool_denies_blocked_statements.2.2.1 (List (String × String)) parseStub rqStub rfl⟩

/-- C5: when the tool is registered without a configuration object, as the
server does in `initialize_tools`, the permission check is skipped and
every statement is passed straight to the executor. -/
theorem run_query_tool_no_config_skips_check (α : Type)
    (parse : String → Option String)
    (rq : String → Except SnowflakeException α) (stmt : String) :
    run_query_tool α initialize_tools_query_config parse rq stmt = rq stmt := rfl

/-- A parser oracle matching sqlglot on the classifier examples of the
spec: SHOW statements parse to a Command node, SELECT to Select, DESCRIBE
to Describe, and the garbage input fails to parse. -/
def sqlglotStub : String → Option String := fun s =>
  if s == "SHOW DATABASES" then some "Command"
  else if s == "SELECT 1" then some "Select"
  else if s == "DESCRIBE TABLE foo" then some "Describe"
  else none

/-- C8: the classifier examples: SHOW DATABASES maps to show, SELECT 1 to
select, DESCRIBE TABLE foo to describe, and unparseable input to unknown,
for any parser oracle whose answers on these inputs are among what sqlglot
can return for them. -/
theorem classify_spec_examples (parse : String → Option String)
    (h1 : parse "SHOW DATABASES" = some "Command" ∨
          parse "SHOW DATABASES" = some "Show" ∨
          parse "SHOW DATABASES" = none)
    (h2 : parse "SELECT 1" = some "Select")
    (h3 : parse "DESCRIBE TABLE foo" = some "Describe" ∨
          parse "DESCRIBE TABLE foo" = some "Command" ∨
          parse "DESCRIBE TABLE foo" = none)
    (h4 : parse "not valid sql \x7b\x7b\x7b" = none) :
    classify parse "SHOW DATABASES" = "show"
  ∧ classify parse "SELECT 1" = "select"
  ∧ classify parse "DESCRIBE TABLE foo" = "describe"
  ∧ classify parse "not valid sql \x7b\x7b\x7b" = "unknown" := by
  refine ⟨?_, ?_, ?_, ?_⟩
  · rcases h1 with h | h | h <;> simp [classify, get_statement_type, h] <;> decide
  · simp [classify, get_statement_type, h2]
    decide
  · rcases h3 with h | h | h <;> simp [classify, get_statement_type, h] <;> decide
  · simp [classify, get_statement_type, h4]
    decide

/-- Witness for C8 at the concrete sqlglot oracle. -/
theorem classify_spec_examples_witness :
    classify sqlglotStub "SHOW DATABASES" = "show"
  ∧ classify sqlglotStub "SELECT 1" = "select"
  ∧ classify sqlglotStub "DESCRIBE TABLE foo" = "describe"
  ∧ classify sqlglotStub "not valid sql \x7b\x7b\x7b" = "unknown" :=
  classify_spec_examples sqlglotStub (Or.inl rfl) rfl (Or.inl rfl) rfl

/-- Python truthiness of an optional string value in the connection
parameter dict: present and non-empty.  Absent keys and `None` values
coincide in this model because `create_snowflake_service` (`server.py`
lines 109-113) drops `None`-valued keys before the dict reaches the
connection manager, and `_prepare_connection_params` itself strips
`None` values on return (`connection.py` line 189). -/
def truthy : Option String → Bool
  | none => false
  | some s => !s.isEmpty

/-- Python `sub in s` substring membership, via `splitOn`: the split has
more than one part exactly when the substring occurs. -/
def containsSubstr (s sub : String) : Bool := (s.splitOn sub).length != 1

/-- The connection-parameter dict restricted to the keys that
`_prepare_connection_params` (`connection.py` lines 131-189) reads or
writes; `account` and `user` stand for the untouched pass-through keys. -/
structure ConnectionParams where
  account : Option String
  user : Option String
  authenticator : Option String
  password : Option String
  token : Option String
  private_key : Option String
  private_key_file : Option String
  private_key_pwd : Option String
deriving DecidableEq

/-- Embeds `_prepare_connection_params` (`connection.py` lines 131-189):
the chained authenticator dispatch.  `connection_params.get("authenticator",
"snowflake")` is the `getD`; `"password" in connection_params` is `isSome`;
value truthiness is `truthy`; the final removal of `None` values is the
identity under this model (see `truthy`). -/
def _prepare_connection_params (p : ConnectionParams) : ConnectionParams :=
  let authenticator := p.authenticator.getD "snowflake"
  if authenticator == "externalbrowser" then
    { p with password := none, private_key := none,
             private_key_file := none, private_key_pwd := none }
  else if authenticator == "oauth" then
    let p1 :=
      if p.password.isSome && !(truthy p.token) then
        { p with token := p.password, password := none }
      else p
    { p1 with private_key := none, private_key_file := none, private_key_pwd := none }
  else if truthy p.private_key || truthy p.private_key_file then
    { p with password := none, authenticator := some "snowflake" }
  else if authenticator == "snowflake" || authenticator == "" then
    p
  else if authenticator == "username_password_mfa" then
    p
  else if pyStarts authenticator "https://" && containsSubstr authenticator ".okta.com" then
    { p with private_key := none, private_key_file := none, private_key_pwd := none }
  else
    p

/-- The input of the repository's own test
`test_prepare_connection_params_okta`
(`tests/unit/test_connection_auth.py` lines 84-102): an Okta URL
authenticator together with a private key. -/
def oktaTestParams : ConnectionParams :=
  { account := some "test_account", user := some "test_user",
    authenticator := some "https://company.okta.com",
    password := some "password123", token := none,
    private_key := some "should_be_removed",
    private_key_file := none, private_key_pwd := none }

/-- C9: evaluation of the code at the failing input.  The claim (and the
repository's own Okta unit test) require the private-key fields stripped
and the password kept when the authenticator is an Okta URL; the code
instead reaches the key-pair branch first, because that branch is guarded
only by the presence of private-key material and not by the authenticator
being unset or "snowflake": it keeps the private key, strips the
password, and overwrites the authenticator with "snowflake". -/
theorem prepare_params_okta_with_private_key :
    _prepare_connection_params oktaTestParams =
      { account := some "test_account", user := some "test_user",
        authenticator := some "snowflake",
        password := none, token := none,
        private_key := some "should_be_removed",
        private_key_file := none, private_key_pwd := none }
  ∧ (_prepare_connection_params oktaTestParams).private_key ≠ none
  ∧ (_prepare_connection_params oktaTestParams).password = none := by
  refine ⟨by decide, by decide, by decide⟩

/-- Events observable on the driver during a scoped connection
acquisition. -/
inductive ConnEvent where
  | connect
  | openCursor
  | closeCursor
  | closeConnection
deriving DecidableEq

/-- The mutable state of `SnowflakeConnectionManager` relevant to the
scope: the cached persistent connection (`self.connection`), `none` when
no connection has been opened yet, `some id` otherwise. -/
structure ManagerState where
  connection : Option Nat
deriving DecidableEq

/-- Embeds the `get_connection` context manager (`connection.py` lines
218-279) specialised to the exit paths the claim is about, with the
driver abstracted to an event trace: if `self.connection` is `None` a new
connection is opened and cached (the `connect` call is modelled as
succeeding, yielding a fresh connection); a cursor is opened on the
cached connection; the body runs at the `yield` and either returns a
value or raises; the inner `finally` closes the cursor on both paths; a
body exception propagates into the `except` clause and is re-raised
wrapped as `ConnectionError("Connection failed: ...")`.  Nothing in this
scope ever closes the cached connection. -/
def get_connection (α : Type) (st : ManagerState)
    (body : Nat → Except String α) :
    Except String α × ManagerState × List ConnEvent :=
  let acquired :=
    match st.connection with
    | some c => (c, st, ([] : List ConnEvent))
    | none => (0, { connection := some 0 }, [ConnEvent.connect])
  let conn := acquired.1
  let st1 := acquired.2.1
  let ev1 := acquired.2.2 ++ [ConnEvent.openCursor]
  match body conn with
  | Except.ok a => (Except.ok a, st1, ev1 ++ [ConnEvent.closeCursor])
  | Except.error e =>
      (Except.error ("Connection failed: " ++ e), st1, ev1 ++ [ConnEvent.closeCursor])

/-- Embeds `cleanup` (`connection.py` lines 300-307): the only place the
persistent connection is closed. -/
def cleanup (st : ManagerState) : ManagerState × List ConnEvent :=
  match st.connection with
  | some _ => (st, [ConnEvent.closeConnection])
  | none => (st, [])

/-- C10: on every exit path of the scoped acquisition — the body returning
normally or raising — the cursor is closed exactly once, the persistent
connection is never closed by the scope, the cached connection is live
afterwards, and a subsequent acquisition reuses it without opening a new
connection. -/
theorem get_connection_closes_cursor_once (α : Type) (st : ManagerState)
    (body : Nat → Except String α) :
    (get_connection α st body).2.2.count ConnEvent.closeCursor = 1
  ∧ (get_connection α st body).2.2.count ConnEvent.closeConnection = 0
  ∧ (get_connection α st body).2.1.connection.isSome = true
  ∧ (∀ (body2 : Nat → Except String α),
       (get_connection α (get_connection α st body).2.1 body2).2.2.count
         ConnEvent.connect = 0) := by
  have htrace : ∀ (s : ManagerState) (b : Nat → Except String α),
      (get_connection α s b).2.2.count ConnEvent.closeCursor = 1
    ∧ (get_connection α s b).2.2.count ConnEvent.closeConnection = 0
    ∧ ((get_connection α s b).2.2.count ConnEvent.connect =
        if s.connection.isSome then 0 else 1)
    ∧ (get_connection α s b).2.1.connection.isSome = true := by
    intro s b
    cases hc : s.connection with
    | none => cases hb : b 0 <;> simp [get_connection, hc, hb]
    | some c => cases hb : b c <;> simp [get_connection, hc, hb]
  refine ⟨(htrace st body).1, (htrace st body).2.1, (htrace st body).2.2.2, ?_⟩
  intro body2
  have h2 := (htrace (get_connection α st body).2.1 body2).2.2.1
  rw [(htrace st body).2.2.2] at h2
  simpa using h2
